import Mathlib

/-!
Verification of the B-Ball-Metrics NBA analytics core: the PER calculation
(`calculatePER` in the NBA API service), the stats normalizer
(`convertToPlayerFormat` / `convertToTeamFormat` in `RealNBADataService`),
and the freshness cache around `fetchPlayerData` / `fetchTeamData`.

JavaScript numbers are embedded as exact rationals extended with the
IEEE-754 special values `+Infinity`, `-Infinity` and `NaN`.  Finite
arithmetic is idealized as exact (no binary rounding); the special-value
propagation rules follow IEEE-754 / ECMAScript.  JavaScript negative zero
is conflated with zero: a zero denominator is treated as positive zero,
which is the only reachable case for the expressions of this code (all
zero denominators here arise from non-negative literals or from sums of
values whose IEEE sum is positive zero).
-/

/-- A JavaScript number: an exact finite rational, or one of the IEEE-754
special values. -/
inductive JsVal where
  | num (q : ℚ)
  | posInf
  | negInf
  | nan
deriving DecidableEq

/-- JavaScript `x + y`. -/
def jsAdd : JsVal → JsVal → JsVal
  | .nan, _ => .nan
  | _, .nan => .nan
  | .posInf, .negInf => .nan
  | .negInf, .posInf => .nan
  | .posInf, _ => .posInf
  | _, .posInf => .posInf
  | .negInf, _ => .negInf
  | _, .negInf => .negInf
  | .num a, .num b => .num (a + b)

/-- JavaScript `x - y`. -/
def jsSub : JsVal → JsVal → JsVal
  | .nan, _ => .nan
  | _, .nan => .nan
  | .posInf, .posInf => .nan
  | .negInf, .negInf => .nan
  | .posInf, _ => .posInf
  | _, .posInf => .negInf
  | .negInf, _ => .negInf
  | _, .negInf => .posInf
  | .num a, .num b => .num (a - b)

/-- JavaScript `x * y`.  Note `0 * ±Infinity = NaN`. -/
def jsMul : JsVal → JsVal → JsVal
  | .nan, _ => .nan
  | _, .nan => .nan
  | .posInf, .posInf => .posInf
  | .posInf, .negInf => .negInf
  | .negInf, .posInf => .negInf
  | .negInf, .negInf => .posInf
  | .posInf, .num b => if b = 0 then .nan else if 0 < b then .posInf else .negInf
  | .num a, .posInf => if a = 0 then .nan else if 0 < a then .posInf else .negInf
  | .negInf, .num b => if b = 0 then .nan else if 0 < b then .negInf else .posInf
  | .num a, .negInf => if a = 0 then .nan else if 0 < a then .negInf else .posInf
  | .num a, .num b => .num (a * b)

/-- JavaScript `x / y`.  A zero divisor is treated as positive zero:
`a / 0` is `NaN` when `a = 0` and `±Infinity` otherwise. -/
def jsDiv : JsVal → JsVal → JsVal
  | .nan, _ => .nan
  | _, .nan => .nan
  | .posInf, .posInf => .nan
  | .posInf, .negInf => .nan
  | .negInf, .posInf => .nan
  | .negInf, .negInf => .nan
  | .posInf, .num b => if 0 ≤ b then .posInf else .negInf
  | .negInf, .num b => if 0 ≤ b then .negInf else .posInf
  | .num _, .posInf => .num 0
  | .num _, .negInf => .num 0
  | .num a, .num b =>
      if b = 0 then (if a = 0 then .nan else if 0 < a then .posInf else .negInf)
      else .num (a / b)

/-- JavaScript `Math.min(x, y)`: `NaN` if either argument is `NaN`. -/
def jsMin : JsVal → JsVal → JsVal
  | .nan, _ => .nan
  | _, .nan => .nan
  | .negInf, _ => .negInf
  | _, .negInf => .negInf
  | .posInf, y => y
  | x, .posInf => x
  | .num a, .num b => .num (min a b)

/-- JavaScript `Math.max(x, y)`: `NaN` if either argument is `NaN`. -/
def jsMax : JsVal → JsVal → JsVal
  | .nan, _ => .nan
  | _, .nan => .nan
  | .posInf, _ => .posInf
  | _, .posInf => .posInf
  | .negInf, y => y
  | x, .negInf => x
  | .num a, .num b => .num (max a b)

/-- JavaScript `x <= y` (false whenever an operand is `NaN`). -/
def jsLe : JsVal → JsVal → Bool
  | .nan, _ => false
  | _, .nan => false
  | .negInf, _ => true
  | _, .posInf => true
  | .posInf, _ => false
  | _, .negInf => false
  | .num a, .num b => decide (a ≤ b)

/-- JavaScript `Number.isFinite`. -/
def isFinite : JsVal → Bool
  | .num _ => true
  | _ => false

/-- JavaScript `Number.isNaN`. -/
def isNaN : JsVal → Bool
  | .nan => true
  | _ => false

/-- True exactly on `±Infinity`. -/
def isInfinite : JsVal → Bool
  | .posInf => true
  | .negInf => true
  | _ => false

/-- The rational carried by a finite value (0 on the special values). -/
def qOf : JsVal → ℚ
  | .num q => q
  | _ => 0

/-- JavaScript `Math.round` on a finite value: half-up, i.e. toward
positive infinity on ties. -/
def jsRoundQ (x : ℚ) : ℤ := Int.floor (x + 1/2)

/-- JavaScript `Math.round` on a JS value (`±Infinity` and `NaN` are fixed). -/
def jsRound : JsVal → JsVal
  | .num q => .num ((jsRoundQ q : ℤ) : ℚ)
  | .posInf => .posInf
  | .negInf => .negInf
  | .nan => .nan

@[simp] theorem jsAdd_num_num (a b : ℚ) : jsAdd (.num a) (.num b) = .num (a + b) := rfl

@[simp] theorem jsSub_num_num (a b : ℚ) : jsSub (.num a) (.num b) = .num (a - b) := rfl

@[simp] theorem jsMul_num_num (a b : ℚ) : jsMul (.num a) (.num b) = .num (a * b) := rfl

theorem jsDiv_num_num (a b : ℚ) (h : b ≠ 0) : jsDiv (.num a) (.num b) = .num (a / b) := by
  simp [jsDiv, h]

@[simp] theorem jsMin_num_num (a b : ℚ) : jsMin (.num a) (.num b) = .num (min a b) := rfl

@[simp] theorem jsMax_num_num (a b : ℚ) : jsMax (.num a) (.num b) = .num (max a b) := rfl

@[simp] theorem jsLe_num_num (a b : ℚ) : jsLe (.num a) (.num b) = decide (a ≤ b) := rfl

example : jsAdd (.num 1) (.num 2) = .num 3 := by norm_num
example : jsMul (.num 0) .posInf = .nan := by simp [jsMul]
example : jsDiv (.num 1) (.num 0) = .posInf := by norm_num [jsDiv]

/-- The per-player statistics row delivered by the NBA stats API
(`NBAPlayerStats` in the service module), restricted to the fields the
analytics core reads; the remaining interface fields (`AGE`, `W`, `L`,
`OREB`, `DREB`, plus-minus and fantasy columns, …) are never read by
`calculatePER` or the normalizer and are omitted. -/
structure NBAPlayerStats where
  PLAYER_ID : ℤ
  PLAYER_NAME : String
  TEAM_ABBREVIATION : String
  GP : ℚ
  MIN : ℚ
  FGM : ℚ
  FGA : ℚ
  FG_PCT : ℚ
  FG3M : ℚ
  FG3A : ℚ
  FG3_PCT : ℚ
  FTM : ℚ
  FTA : ℚ
  FT_PCT : ℚ
  REB : ℚ
  AST : ℚ
  TOV : ℚ
  STL : ℚ
  BLK : ℚ
  PF : ℚ
  PTS : ℚ
deriving DecidableEq

/-- The `factor` constant of `calculatePER`:
`(2/3) - (0.5 * (AST / (FGM + 0.001))) / (2 * (FGM + 0.001) / (FTM + 0.001))`. -/
def perFactor (player : NBAPlayerStats) : JsVal :=
  jsSub (.num (2/3))
    (jsDiv
      (jsMul (.num 0.5) (jsDiv (.num player.AST) (jsAdd (.num player.FGM) (.num 0.001))))
      (jsDiv (jsMul (.num 2) (jsAdd (.num player.FGM) (.num 0.001)))
        (jsAdd (.num player.FTM) (.num 0.001))))

/-- The `VOP` constant of `calculatePER`:
`PTS / (FGA - REB + TOV + 0.44 * FTA)` (no epsilon guard on the denominator). -/
def perVOP (player : NBAPlayerStats) : JsVal :=
  jsDiv (.num player.PTS)
    (jsAdd (jsAdd (jsSub (.num player.FGA) (.num player.REB)) (.num player.TOV))
      (jsMul (.num 0.44) (.num player.FTA)))

/-- The `DRB_PCT` constant of `calculatePER` (estimated defensive rebound
percentage). -/
def perDRB : JsVal := .num 0.2

/-- The `uPER` constant of `calculatePER`: `(1 / MIN) * (…weighted sum…)`,
transcribed term by term with the source parenthesization, including the
always-zero `VOP * (1 - DRB_PCT) * (REB - REB)` term and the divisions by
`PF` with no epsilon guard. -/
def perUPER (player : NBAPlayerStats) : JsVal :=
  jsMul (jsDiv (.num 1) (.num player.MIN))
    (jsSub
      (jsAdd
        (jsAdd
          (jsAdd
            (jsAdd
              (jsSub
                (jsSub
                  (jsSub
                    (jsAdd
                      (jsAdd
                        (jsAdd (.num player.FG3M)
                          (jsMul (.num (2/3)) (.num player.AST)))
                        (jsMul
                          (jsSub (.num 2)
                            (jsMul (perFactor player)
                              (jsDiv (.num player.AST)
                                (jsAdd (.num player.FGM) (.num 0.001)))))
                          (.num player.FGM)))
                      (jsMul (jsMul (.num player.FTM) (.num 0.5))
                        (jsAdd
                          (jsAdd (.num 1)
                            (jsSub (.num 1)
                              (jsDiv (.num player.AST)
                                (jsAdd (.num player.FGM) (.num 0.001)))))
                          (jsMul (.num (2/3))
                            (jsDiv (.num player.AST)
                              (jsAdd (.num player.FGM) (.num 0.001)))))))
                    (jsMul (perVOP player) (.num player.TOV)))
                  (jsMul (jsMul (perVOP player) perDRB)
                    (jsSub (.num player.FGA) (.num player.FGM))))
                (jsMul
                  (jsMul (jsMul (perVOP player) (.num 0.44))
                    (jsAdd (.num 0.44) (jsMul (.num 0.56) perDRB)))
                  (jsSub (.num player.FTA) (.num player.FTM))))
              (jsMul (jsMul (perVOP player) (jsSub (.num 1) perDRB))
                (jsSub (.num player.REB) (.num player.REB))))
            (jsMul (jsMul (perVOP player) perDRB) (.num player.REB)))
          (jsMul (perVOP player) (.num player.STL)))
        (jsMul (jsMul (perVOP player) perDRB) (.num player.BLK)))
      (jsMul (.num player.PF)
        (jsSub (jsDiv (.num player.FTM) (.num player.PF))
          (jsMul (jsMul (.num 0.44) (jsDiv (.num player.FTA) (.num player.PF)))
            (perVOP player)))))

/-- `calculatePER` from `NBAApiService`: returns `0` when `MIN === 0`,
otherwise scales `uPER` to a league average of 15 and clamps with
`Math.max(0, Math.min(40, uPER * 15))`. -/
def calculatePER (player : NBAPlayerStats) : JsVal :=
  if player.MIN = 0 then .num 0
  else jsMax (.num 0) (jsMin (.num 40) (jsMul (perUPER player) (.num 15)))

/-- Step 2 of spec section 4.1: `factor`. -/
def specFactor (p : NBAPlayerStats) : JsVal :=
  jsSub (.num (2/3))
    (jsDiv
      (jsMul (.num 0.5) (jsDiv (.num p.AST) (jsAdd (.num p.FGM) (.num 0.001))))
      (jsDiv (jsMul (.num 2) (jsAdd (.num p.FGM) (.num 0.001)))
        (jsAdd (.num p.FTM) (.num 0.001))))

/-- Step 3 of spec section 4.1: `VOP = PTS / (FGA - REB + TOV + 0.44 * FTA)`,
with no epsilon guard on the denominator. -/
def specVOP (p : NBAPlayerStats) : JsVal :=
  jsDiv (.num p.PTS)
    (jsAdd (jsAdd (jsSub (.num p.FGA) (.num p.REB)) (.num p.TOV))
      (jsMul (.num 0.44) (.num p.FTA)))

/-- Step 4 of spec section 4.1: the constant `DRB_PCT = 0.2`. -/
def specDRB : JsVal := .num 0.2

/-- Step 5 of spec section 4.1: the `uPER` weighted sum, exactly as written,
including the always-zero `VOP·(1−DRB_PCT)·(REB−REB)` term and the
epsilon-unguarded divisions by `PF`. -/
def specUPER (p : NBAPlayerStats) : JsVal :=
  jsMul (jsDiv (.num 1) (.num p.MIN))
    (jsSub
      (jsAdd
        (jsAdd
          (jsAdd
            (jsAdd
              (jsSub
                (jsSub
                  (jsSub
                    (jsAdd
                      (jsAdd
                        (jsAdd (.num p.FG3M)
                          (jsMul (.num (2/3)) (.num p.AST)))
                        (jsMul
                          (jsSub (.num 2)
                            (jsMul (specFactor p)
                              (jsDiv (.num p.AST)
                                (jsAdd (.num p.FGM) (.num 0.001)))))
                          (.num p.FGM)))
                      (jsMul (jsMul (.num p.FTM) (.num 0.5))
                        (jsAdd
                          (jsAdd (.num 1)
                            (jsSub (.num 1)
                              (jsDiv (.num p.AST)
                                (jsAdd (.num p.FGM) (.num 0.001)))))
                          (jsMul (.num (2/3))
                            (jsDiv (.num p.AST)
                              (jsAdd (.num p.FGM) (.num 0.001)))))))
                    (jsMul (specVOP p) (.num p.TOV)))
                  (jsMul (jsMul (specVOP p) specDRB)
                    (jsSub (.num p.FGA) (.num p.FGM))))
                (jsMul
                  (jsMul (jsMul (specVOP p) (.num 0.44))
                    (jsAdd (.num 0.44) (jsMul (.num 0.56) specDRB)))
                  (jsSub (.num p.FTA) (.num p.FTM))))
              (jsMul (jsMul (specVOP p) (jsSub (.num 1) specDRB))
                (jsSub (.num p.REB) (.num p.REB))))
            (jsMul (jsMul (specVOP p) specDRB) (.num p.REB)))
          (jsMul (specVOP p) (.num p.STL)))
        (jsMul (jsMul (specVOP p) specDRB) (.num p.BLK)))
      (jsMul (.num p.PF)
        (jsSub (jsDiv (.num p.FTM) (.num p.PF))
          (jsMul (jsMul (.num 0.44) (jsDiv (.num p.FTA) (.num p.PF)))
            (specVOP p)))))

/-- The reference PER algorithm of spec section 4.1, steps 1 to 8, written
from the spec text: return `0` immediately when `MIN == 0`; otherwise scale
`uPER` by 15 and clamp, `max(0, min(40, result))`. -/
def specPER (p : NBAPlayerStats) : JsVal :=
  if p.MIN = 0 then .num 0
  else jsMax (.num 0) (jsMin (.num 40) (jsMul (specUPER p) (.num 15)))

/-- `Math.round(x * 10) / 10`, the one-decimal rounding the normalizer
applies to every per-game field, on finite values. -/
def roundTo1 (x : ℚ) : ℚ := ((jsRoundQ (x * 10) : ℤ) : ℚ) / 10

/-- `Math.round(x * 10) / 10` on a JS value (the `per` field may be `NaN`
or `±Infinity`). -/
def roundTo1J (x : JsVal) : JsVal := jsDiv (jsRound (jsMul x (.num 10))) (.num 10)

/-- Rounding half away from zero, the semantics the spec ascribes to the
normalizer's one-decimal rounding. -/
def awayRound (y : ℚ) : ℤ := if 0 ≤ y then Int.floor (y + 1/2) else -Int.floor (-y + 1/2)

theorem roundTo1J_num (q : ℚ) : roundTo1J (.num q) = .num (roundTo1 q) := by
  simp [roundTo1J, jsRound, roundTo1, jsDiv]

/-- The canonical `Player` record (types module), produced by
`convertToPlayerFormat`.  The `per` and `predictedPER` fields keep the JS
value type since the PER computation can produce non-finite values. -/
structure Player where
  id : String
  name : String
  team : String
  position : String
  gamesPlayed : ℚ
  minutes : ℚ
  points : ℚ
  rebounds : ℚ
  assists : ℚ
  steals : ℚ
  blocks : ℚ
  turnovers : ℚ
  fieldGoalsMade : ℚ
  fieldGoalsAttempted : ℚ
  threePointersMade : ℚ
  threePointersAttempted : ℚ
  freeThrowsMade : ℚ
  freeThrowsAttempted : ℚ
  per : JsVal
  predictedPER : JsVal
deriving DecidableEq

/-- The body of the `map` in `convertToPlayerFormat`.  The two
non-deterministic collaborators of the source are passed as parameters:
`pred` models `generateMLPrediction(player, per)` (simulated ML prediction
with `Math.random()` noise) and `pos` models `getPlayerPosition(name)`
(random position assignment); the spec treats both as external
collaborators. -/
def toPlayer (pred : NBAPlayerStats → JsVal → JsVal) (pos : String → String)
    (player : NBAPlayerStats) : Player :=
  let per := calculatePER player
  let predictedPER := pred player per
  { id := toString player.PLAYER_ID
    name := player.PLAYER_NAME
    team := player.TEAM_ABBREVIATION
    position := pos player.PLAYER_NAME
    gamesPlayed := player.GP
    minutes := roundTo1 player.MIN
    points := roundTo1 player.PTS
    rebounds := roundTo1 player.REB
    assists := roundTo1 player.AST
    steals := roundTo1 player.STL
    blocks := roundTo1 player.BLK
    turnovers := roundTo1 player.TOV
    fieldGoalsMade := roundTo1 player.FGM
    fieldGoalsAttempted := roundTo1 player.FGA
    threePointersMade := roundTo1 player.FG3M
    threePointersAttempted := roundTo1 player.FG3A
    freeThrowsMade := roundTo1 player.FTM
    freeThrowsAttempted := roundTo1 player.FTA
    per := roundTo1J per
    predictedPER := roundTo1J predictedPER }

/-- The comparator `(a, b) => b.per - a.per` of the descending sort in
`convertToPlayerFormat`, as the "a sorts no later than b" test
`comparator(a, b) <= 0` used by a stable ECMAScript `Array.prototype.sort`.
(ECMAScript only pins the sort result down for consistent comparators,
which for this comparator means finite `per` values.) -/
def playerLe (a b : Player) : Bool := jsLe (jsSub b.per a.per) (.num 0)

/-- `convertToPlayerFormat` of `RealNBADataService`: filter `GP > 10`,
map to canonical `Player` records, sort by `per` descending with a stable
sort. -/
def convertToPlayerFormat (pred : NBAPlayerStats → JsVal → JsVal)
    (pos : String → String) (nbaPlayers : List NBAPlayerStats) : List Player :=
  (((nbaPlayers.filter fun player => decide (10 < player.GP)).map
    (toPlayer pred pos)).mergeSort playerLe)

/-- The per-team statistics row (`NBATeamStats`), restricted to the fields
`convertToTeamFormat` reads. -/
structure NBATeamStats where
  TEAM_ID : ℤ
  TEAM_NAME : String
  TEAM_CITY : String
  TEAM_ABBREVIATION : String
  W : ℚ
  L : ℚ
  W_PCT : ℚ
  PTS : ℚ
  REB : ℚ
  AST : ℚ
  FG_PCT : ℚ
  FG3_PCT : ℚ
  FT_PCT : ℚ
deriving DecidableEq

/-- The canonical `Team` record (types module). -/
structure Team where
  id : String
  name : String
  city : String
  abbreviation : String
  wins : ℚ
  losses : ℚ
  winPercentage : ℚ
  pointsPerGame : ℚ
  reboundsPerGame : ℚ
  assistsPerGame : ℚ
  fieldGoalPercentage : ℚ
  threePointPercentage : ℚ
  freeThrowPercentage : ℚ
deriving DecidableEq

/-- `TEAM_NAME.replace(/^.*\s/, '')`: the greedy match removes everything
up to and including the last whitespace, leaving the word after the last
space (the string itself when it has no space).  Team names from the API
use plain spaces. -/
def stripCity (s : String) : String := (s.splitOn " ").getLastD s

/-- `Math.round(x * 1000) / 10`, the percentage rounding of
`convertToTeamFormat`. -/
def roundPct (x : ℚ) : ℚ := ((jsRoundQ (x * 1000) : ℤ) : ℚ) / 10

/-- The body of the `map` in `convertToTeamFormat`. -/
def toTeam (team : NBATeamStats) : Team :=
  { id := toString team.TEAM_ID
    name := stripCity team.TEAM_NAME
    city := team.TEAM_CITY
    abbreviation := team.TEAM_ABBREVIATION
    wins := team.W
    losses := team.L
    winPercentage := roundPct team.W_PCT
    pointsPerGame := roundTo1 team.PTS
    reboundsPerGame := roundTo1 team.REB
    assistsPerGame := roundTo1 team.AST
    fieldGoalPercentage := roundPct team.FG_PCT
    threePointPercentage := roundPct team.FG3_PCT
    freeThrowPercentage := roundPct team.FT_PCT }

/-- The comparator `(a, b) => b.winPercentage - a.winPercentage` of the
descending team sort, as the "sorts no later than" test (both fields are
always finite rationals). -/
def teamLe (a b : Team) : Bool := decide (b.winPercentage - a.winPercentage ≤ 0)

/-- `convertToTeamFormat` of `RealNBADataService`. -/
def convertToTeamFormat (nbaTeams : List NBATeamStats) : List Team :=
  (nbaTeams.map toTeam).mergeSort teamLe

/-- The private mutable state of `RealNBADataService`: the two raw-stats
caches and the single shared `lastFetchTime` timestamp (milliseconds). -/
structure ServiceState where
  playerStatsCache : List NBAPlayerStats
  teamStatsCache : List NBATeamStats
  lastFetchTime : ℤ
deriving DecidableEq

/-- `CACHE_DURATION = 5 * 60 * 1000` (5 minutes). -/
def CACHE_DURATION : ℤ := 5 * 60 * 1000

/-- `NBAApiService.getPlayerStats`: the underlying request either delivers
rows or fails; the `catch` block logs the error and returns the empty
list, so a failure never propagates to the caller as a failure. -/
def getPlayerStats (outcome : Except String (List NBAPlayerStats)) :
    List NBAPlayerStats :=
  match outcome with
  | .ok rows => rows
  | .error _ => []

/-- `NBAApiService.getTeamStats`: same catch-and-return-empty structure. -/
def getTeamStats (outcome : Except String (List NBATeamStats)) :
    List NBATeamStats :=
  match outcome with
  | .ok rows => rows
  | .error _ => []

/-- Observable outcome of one `fetchPlayerData` call: the returned list,
the service state after the call, and whether the underlying stats fetch
was invoked (false exactly on the cache-hit early return). -/
structure FetchPlayersResult where
  players : List Player
  state : ServiceState
  fetchInvoked : Bool
deriving DecidableEq

/-- Observable outcome of one `fetchTeamData` call. -/
structure FetchTeamsResult where
  teams : List Team
  state : ServiceState
  fetchInvoked : Bool
deriving DecidableEq

/-- `RealNBADataService.fetchPlayerData`, with the call time and the
outcome of the underlying request made explicit.  On a cache hit
(non-empty `playerStatsCache` and `Date.now() - lastFetchTime <
CACHE_DURATION`) it re-converts the cached raw stats without fetching;
otherwise it stores whatever `getPlayerStats` returns (the empty list on
failure) and sets `lastFetchTime = Date.now()`.  The surrounding
`try/catch` is unreachable in this model because `getPlayerStats` already
catches every failure. -/
def fetchPlayerData (pred : NBAPlayerStats → JsVal → JsVal) (pos : String → String)
    (s : ServiceState) (now : ℤ) (outcome : Except String (List NBAPlayerStats)) :
    FetchPlayersResult :=
  if 0 < s.playerStatsCache.length ∧ now - s.lastFetchTime < CACHE_DURATION then
    ⟨convertToPlayerFormat pred pos s.playerStatsCache, s, false⟩
  else
    let playerStats := getPlayerStats outcome
    ⟨convertToPlayerFormat pred pos playerStats,
      { s with playerStatsCache := playerStats, lastFetchTime := now }, true⟩

/-- `RealNBADataService.fetchTeamData`, same structure as
`fetchPlayerData`, sharing the same `lastFetchTime` field. -/
def fetchTeamData (s : ServiceState) (now : ℤ)
    (outcome : Except String (List NBATeamStats)) : FetchTeamsResult :=
  if 0 < s.teamStatsCache.length ∧ now - s.lastFetchTime < CACHE_DURATION then
    ⟨convertToTeamFormat s.teamStatsCache, s, false⟩
  else
    let teamStats := getTeamStats outcome
    ⟨convertToTeamFormat teamStats,
      { s with teamStatsCache := teamStats, lastFetchTime := now }, true⟩

/-- The end-to-end fixture of spec section 8. -/
def fixturePlayer : NBAPlayerStats :=
  { PLAYER_ID := 1, PLAYER_NAME := "Fixture Player", TEAM_ABBREVIATION := "LAL"
    GP := 70, MIN := 34.2, FGM := 9, FGA := 18, FG_PCT := 0.5, FG3M := 2, FG3A := 5
    FG3_PCT := 0.4, FTM := 4, FTA := 5, FT_PCT := 0.8, REB := 7, AST := 5, TOV := 3
    STL := 1, BLK := 1, PF := 2, PTS := 24 }

/-- A concrete instantiation of the external prediction collaborator. -/
def pred0 : NBAPlayerStats → JsVal → JsVal := fun _ _ => .num 0

/-- Another concrete instantiation of the prediction collaborator. -/
def predB : NBAPlayerStats → JsVal → JsVal := fun _ _ => .num 20

/-- A concrete instantiation of the external position collaborator. -/
def pos0 : String → String := fun _ => "SF"

/-- Claim C1: for every statistics record with `MIN`, `FGM`, `FGA`, `FTM`,
`FTA`, `FG3M`, `AST`, `REB`, `TOV`, `STL`, `BLK`, `PF`, `PTS` all
non-negative, `calculatePER` computes exactly the reference algorithm of
spec section 4.1: return `0` when `MIN == 0`, else the epsilon-guarded
`factor`, the unguarded `VOP`, `DRB_PCT = 0.2`, the `uPER` weighted sum as
written (with the always-zero `REB − REB` term and unguarded `PF`
divisions), clamped as `max(0, min(40, uPER·15))`. -/
theorem calculatePER_matches_spec (p : NBAPlayerStats)
    (h1 : 0 ≤ p.MIN) (h2 : 0 ≤ p.FGM) (h3 : 0 ≤ p.FGA) (h4 : 0 ≤ p.FTM)
    (h5 : 0 ≤ p.FTA) (h6 : 0 ≤ p.FG3M) (h7 : 0 ≤ p.AST) (h8 : 0 ≤ p.REB)
    (h9 : 0 ≤ p.TOV) (h10 : 0 ≤ p.STL) (h11 : 0 ≤ p.BLK) (h12 : 0 ≤ p.PF)
    (h13 : 0 ≤ p.PTS) :
    calculatePER p = specPER p := rfl

/-- Witness for C1 at the spec section 8 fixture. -/
theorem calculatePER_matches_spec_witness :
    calculatePER fixturePlayer = specPER fixturePlayer :=
  calculatePER_matches_spec fixturePlayer (by norm_num [fixturePlayer])
    (by norm_num [fixturePlayer]) (by norm_num [fixturePlayer])
    (by norm_num [fixturePlayer]) (by norm_num [fixturePlayer])
    (by norm_num [fixturePlayer]) (by norm_num [fixturePlayer])
    (by norm_num [fixturePlayer]) (by norm_num [fixturePlayer])
    (by norm_num [fixturePlayer]) (by norm_num [fixturePlayer])
    (by norm_num [fixturePlayer]) (by norm_num [fixturePlayer])

/-- Claim C2: with all fields non-negative, `MIN > 0`, a non-zero `VOP`
denominator and `PF ≠ 0`, `calculatePER` returns a finite value in the
closed interval `[0, 40]`. -/
theorem calculatePER_finite_in_range (p : NBAPlayerStats)
    (h1 : 0 ≤ p.MIN) (h2 : 0 ≤ p.FGM) (h3 : 0 ≤ p.FGA) (h4 : 0 ≤ p.FTM)
    (h5 : 0 ≤ p.FTA) (h6 : 0 ≤ p.FG3M) (h7 : 0 ≤ p.AST) (h8 : 0 ≤ p.REB)
    (h9 : 0 ≤ p.TOV) (h10 : 0 ≤ p.STL) (h11 : 0 ≤ p.BLK) (h12 : 0 ≤ p.PF)
    (h13 : 0 ≤ p.PTS)
    (hMIN : 0 < p.MIN)
    (hden : p.FGA - p.REB + p.TOV + 0.44 * p.FTA ≠ 0)
    (hPF : p.PF ≠ 0) :
    isFinite (calculatePER p) = true
    ∧ jsLe (.num 0) (calculatePER p) = true
    ∧ jsLe (calculatePER p) (.num 40) = true := by
  have hMINne : p.MIN ≠ 0 := ne_of_gt hMIN
  have hfgm : p.FGM + (0.001 : ℚ) ≠ 0 := ne_of_gt (by linarith)
  have hftm : p.FTM + (0.001 : ℚ) ≠ 0 := ne_of_gt (by linarith)
  have hfden : 2 * (p.FGM + 0.001) / (p.FTM + 0.001) ≠ 0 :=
    div_ne_zero (ne_of_gt (by linarith)) hftm
  have hU : ∃ u : ℚ, perUPER p = .num u := by
    simp only [perUPER, perFactor, perVOP, perDRB, jsAdd_num_num, jsSub_num_num,
      jsMul_num_num, jsDiv_num_num, hfgm, hftm, hfden, hden, hPF, hMINne, ne_eq,
      not_false_eq_true]
    exact ⟨_, rfl⟩
  obtain ⟨u, hu⟩ := hU
  have hc : calculatePER p = .num (max 0 (min 40 (u * 15))) := by
    unfold calculatePER
    rw [if_neg hMINne, hu]
    rfl
  refine ⟨by rw [hc]; rfl, ?_, ?_⟩
  · rw [hc, jsLe_num_num]
    exact decide_eq_true (le_max_left _ _)
  · rw [hc, jsLe_num_num]
    exact decide_eq_true (max_le (by norm_num) (min_le_left _ _))

/-- Witness for C2 at the spec section 8 fixture (the `VOP` denominator is
`18 − 7 + 3 + 0.44·5 = 16.2` and `PF = 2`). -/
theorem calculatePER_finite_in_range_witness :
    isFinite (calculatePER fixturePlayer) = true
    ∧ jsLe (.num 0) (calculatePER fixturePlayer) = true
    ∧ jsLe (calculatePER fixturePlayer) (.num 40) = true :=
  calculatePER_finite_in_range fixturePlayer (by norm_num [fixturePlayer])
    (by norm_num [fixturePlayer]) (by norm_num [fixturePlayer])
    (by norm_num [fixturePlayer]) (by norm_num [fixturePlayer])
    (by norm_num [fixturePlayer]) (by norm_num [fixturePlayer])
    (by norm_num [fixturePlayer]) (by norm_num [fixturePlayer])
    (by norm_num [fixturePlayer]) (by norm_num [fixturePlayer])
    (by norm_num [fixturePlayer]) (by norm_num [fixturePlayer])
    (by norm_num [fixturePlayer]) (by norm_num [fixturePlayer])
    (by norm_num [fixturePlayer])

theorem jsAdd_nan_left (y : JsVal) : jsAdd .nan y = .nan := by cases y <;> rfl

theorem jsAdd_nan_right (x : JsVal) : jsAdd x .nan = .nan := by cases x <;> rfl

theorem jsSub_nan_left (y : JsVal) : jsSub .nan y = .nan := by cases y <;> rfl

theorem jsSub_nan_right (x : JsVal) : jsSub x .nan = .nan := by cases x <;> rfl

theorem jsMul_nan_right (x : JsVal) : jsMul x .nan = .nan := by cases x <;> rfl

/-- Division of any finite value by (positive) zero is `±Infinity` or `NaN`. -/
theorem jsDiv_num_zero_notFinite (a : ℚ) : isFinite (jsDiv (.num a) (.num 0)) = false := by
  rcases eq_or_ne a 0 with h | h
  · simp [jsDiv, h, isFinite]
  · rcases lt_or_le 0 a with h2 | h2
    · simp [jsDiv, h, h2, isFinite]
    · simp [jsDiv, h, not_lt.mpr h2, isFinite]

/-- A non-finite left operand keeps a subtraction non-finite. -/
theorem jsSub_notFinite_left (x y : JsVal) (h : isFinite x = false) :
    isFinite (jsSub x y) = false := by
  cases x <;> cases y <;> simp_all [jsSub, isFinite]

/-- Multiplying a non-finite value by a non-zero finite constant stays
non-finite. -/
theorem jsMul_num_notFinite (x : JsVal) (c : ℚ) (hc : c ≠ 0) (h : isFinite x = false) :
    isFinite (jsMul x (.num c)) = false := by
  cases x with
  | num q => simp [isFinite] at h
  | posInf => simp only [jsMul]; rw [if_neg hc]; split <;> rfl
  | negInf => simp only [jsMul]; rw [if_neg hc]; split <;> rfl
  | nan => rfl

/-- IEEE `0 * x = NaN` for non-finite `x`. -/
theorem jsMul_zero_notFinite (x : JsVal) (h : isFinite x = false) :
    jsMul (.num 0) x = .nan := by
  cases x with
  | num q => simp [isFinite] at h
  | posInf => simp [jsMul]
  | negInf => simp [jsMul]
  | nan => rfl

/-- IEEE `x * 0 = NaN` for non-finite `x`. -/
theorem jsMul_notFinite_zero (x : JsVal) (h : isFinite x = false) :
    jsMul x (.num 0) = .nan := by
  cases x with
  | num q => simp [isFinite] at h
  | posInf => simp [jsMul]
  | negInf => simp [jsMul]
  | nan => rfl

/-- Claim C7: with `MIN > 0` and a degenerate denominator (`VOP`
denominator zero or `PF = 0`), `calculatePER` raises no error and its
return value is `NaN` or `Infinity` (in fact the non-finite intermediate
always collapses to `NaN` by the time it crosses the clamp). -/
theorem calculatePER_degenerate (p : NBAPlayerStats) (hMIN : 0 < p.MIN)
    (hdeg : p.FGA - p.REB + p.TOV + 0.44 * p.FTA = 0 ∨ p.PF = 0) :
    isNaN (calculatePER p) = true ∨ isInfinite (calculatePER p) = true := by
  have hMINne : p.MIN ≠ 0 := ne_of_gt hMIN
  suffices h : perUPER p = .nan by
    left
    unfold calculatePER
    rw [if_neg hMINne, h]
    rfl
  unfold perUPER
  rcases hdeg with hV | hPF
  · have hvop : isFinite (perVOP p) = false := by
      unfold perVOP
      simp only [jsSub_num_num, jsAdd_num_num, jsMul_num_num]
      rw [hV]
      exact jsDiv_num_zero_notFinite _
    have h18 : jsMul (jsMul (perVOP p) (jsSub (.num 1) perDRB))
        (jsSub (.num p.REB) (.num p.REB)) = .nan := by
      rw [jsSub_num_num, sub_self]
      apply jsMul_notFinite_zero
      have hd : jsSub (.num 1) perDRB = .num (1 - 0.2) := rfl
      rw [hd]
      exact jsMul_num_notFinite _ _ (by norm_num) hvop
    rw [h18, jsAdd_nan_right, jsAdd_nan_left, jsAdd_nan_left, jsAdd_nan_left,
      jsSub_nan_left, jsMul_nan_right]
  · have ht12 : jsMul (.num p.PF)
        (jsSub (jsDiv (.num p.FTM) (.num p.PF))
          (jsMul (jsMul (.num 0.44) (jsDiv (.num p.FTA) (.num p.PF)))
            (perVOP p))) = .nan := by
      rw [hPF]
      apply jsMul_zero_notFinite
      apply jsSub_notFinite_left
      exact jsDiv_num_zero_notFinite _
    rw [ht12, jsSub_nan_right, jsMul_nan_right]

/-- A statistics line with zero personal fouls (degenerate `PF`
denominator). -/
def degeneratePlayer : NBAPlayerStats :=
  { PLAYER_ID := 2, PLAYER_NAME := "Degenerate Player", TEAM_ABBREVIATION := "BOS"
    GP := 50, MIN := 10, FGM := 4, FGA := 10, FG_PCT := 0.4, FG3M := 1, FG3A := 3
    FG3_PCT := 0.33, FTM := 2, FTA := 4, FT_PCT := 0.5, REB := 5, AST := 2, TOV := 2
    STL := 1, BLK := 0, PF := 0, PTS := 11 }

/-- Witness for C7 at a record with `PF = 0`. -/
theorem calculatePER_degenerate_witness :
    isNaN (calculatePER degeneratePlayer) = true
    ∨ isInfinite (calculatePER degeneratePlayer) = true :=
  calculatePER_degenerate degeneratePlayer (by norm_num [degeneratePlayer])
    (Or.inr (by norm_num [degeneratePlayer]))

/-- Claim C10: the final clamp `max(0, min(40, ·))` maps `+Infinity` to
exactly `40` and `-Infinity` to exactly `0`, and `calculatePER` never
returns an infinity (so `NaN` is the only non-finite value it can
return). -/
theorem calculatePER_clamp_no_infinity :
    jsMax (.num 0) (jsMin (.num 40) .posInf) = .num 40
    ∧ jsMax (.num 0) (jsMin (.num 40) .negInf) = .num 0
    ∧ ∀ p : NBAPlayerStats, isInfinite (calculatePER p) = false := by
  refine ⟨?_, rfl, ?_⟩
  · show jsMax (.num 0) (.num 40) = .num 40
    rw [jsMax_num_num]
    have h : (max 0 40 : ℚ) = 40 := max_eq_right (by norm_num)
    rw [h]
  · intro p
    unfold calculatePER
    split
    · rfl
    · generalize jsMul (perUPER p) (.num 15) = x
      cases x <;> simp [jsMin, jsMax, isInfinite]

/-- Claim C5: the normalizer drops every record with `GP ≤ 10` and keeps
every record with `GP > 10`: every output record has `gamesPlayed > 10`,
the output length is exactly the number of admitted input records, and
hence at most the input length (dropped records raise no error: the
function is total). -/
theorem convertToPlayerFormat_admission (pred : NBAPlayerStats → JsVal → JsVal)
    (pos : String → String) (l : List NBAPlayerStats) :
    ((convertToPlayerFormat pred pos l).all fun pl => decide (10 < pl.gamesPlayed)) = true
    ∧ (convertToPlayerFormat pred pos l).length
      = (l.filter fun r => decide (10 < r.GP)).length
    ∧ (convertToPlayerFormat pred pos l).length ≤ l.length := by
  refine ⟨?_, ?_, ?_⟩
  · rw [List.all_eq_true]
    intro pl hpl
    unfold convertToPlayerFormat at hpl
    rw [List.mem_mergeSort] at hpl
    obtain ⟨r, hr, rfl⟩ := List.mem_map.mp hpl
    rw [List.mem_filter] at hr
    exact hr.2
  · unfold convertToPlayerFormat
    rw [List.length_mergeSort, List.length_map]
  · unfold convertToPlayerFormat
    rw [List.length_mergeSort, List.length_map]
    exact List.length_filter_le _ _

/-- Players whose `per` value is finite; on these the JS sort comparator
`b.per - a.per` is consistent in the ECMAScript sense. -/
def FinPlayer : Type := {pl : Player // isFinite pl.per = true}

/-- The sort comparator restricted to finite-`per` players. -/
def finPerLe (a b : FinPlayer) : Bool := playerLe a.val b.val

theorem playerLe_fin (a b : Player) (ha : isFinite a.per = true)
    (hb : isFinite b.per = true) :
    playerLe a b = decide (qOf b.per - qOf a.per ≤ 0) := by
  cases hA : a.per <;> cases hB : b.per <;>
    simp_all [playerLe, isFinite, qOf, jsSub, jsLe]

theorem finPerLe_trans (a b c : FinPlayer) :
    finPerLe a b → finPerLe b c → finPerLe a c := by
  intro hab hbc
  unfold finPerLe at *
  rw [playerLe_fin _ _ a.2 b.2] at hab
  rw [playerLe_fin _ _ b.2 c.2] at hbc
  rw [playerLe_fin _ _ a.2 c.2]
  rw [decide_eq_true_eq] at hab hbc
  rw [decide_eq_true_eq]
  linarith

theorem finPerLe_total (a b : FinPlayer) : finPerLe a b || finPerLe b a := by
  unfold finPerLe
  rw [playerLe_fin _ _ a.2 b.2, playerLe_fin _ _ b.2 a.2, Bool.or_eq_true,
    decide_eq_true_eq, decide_eq_true_eq]
  rcases le_total (qOf a.1.per) (qOf b.1.per) with h | h
  · right; linarith
  · left; linarith

/-- Claim C6: when every computed (rounded) `per` is finite, the
normalizer output is sorted by `per` in descending order, and the sort is
stable: two admitted input records with equal `per` keep their relative
input order in the output. -/
theorem convertToPlayerFormat_sorted_stable (pred : NBAPlayerStats → JsVal → JsVal)
    (pos : String → String) (l : List NBAPlayerStats)
    (hfin : ∀ pl ∈ (l.filter fun r => decide (10 < r.GP)).map (toPlayer pred pos),
      isFinite pl.per = true) :
    ((convertToPlayerFormat pred pos l).Pairwise fun a b => qOf b.per ≤ qOf a.per)
    ∧ ∀ r1 r2 : NBAPlayerStats, 10 < r1.GP → 10 < r2.GP →
        (toPlayer pred pos r1).per = (toPlayer pred pos r2).per →
        [r1, r2].Sublist l →
        [toPlayer pred pos r1, toPlayer pred pos r2].Sublist
          (convertToPlayerFormat pred pos l) := by
  set pre := (l.filter fun r => decide (10 < r.GP)).map (toPlayer pred pos) with hpre
  let lsub : List FinPlayer := pre.attach.map fun x => ⟨x.1, hfin x.1 x.2⟩
  have hmapval : lsub.map Subtype.val = pre := by
    show (pre.attach.map fun x => (⟨x.1, hfin x.1 x.2⟩ : FinPlayer)).map Subtype.val = pre
    rw [List.map_map]
    exact List.attach_map_subtype_val pre
  have hagree : ∀ a ∈ lsub, ∀ b ∈ lsub, finPerLe a b = playerLe a.1 b.1 :=
    fun a _ b _ => rfl
  have hkey : (lsub.mergeSort finPerLe).map Subtype.val = pre.mergeSort playerLe := by
    rw [List.map_mergeSort hagree, hmapval]
  have hout : convertToPlayerFormat pred pos l = pre.mergeSort playerLe := rfl
  constructor
  · rw [hout, ← hkey, List.pairwise_map]
    refine (List.sorted_mergeSort finPerLe_trans finPerLe_total lsub).imp ?_
    intro a b hab
    have he := playerLe_fin a.1 b.1 a.2 b.2
    unfold finPerLe at hab
    rw [he, decide_eq_true_eq] at hab
    linarith
  · intro r1 r2 h1 h2 hper hsub
    have hfilter : [r1, r2].filter (fun r => decide (10 < r.GP)) = [r1, r2] := by
      simp [h1, h2]
    have hsubf : List.Sublist [r1, r2] (l.filter (fun r => decide (10 < r.GP))) := by
      have h := hsub.filter (fun r => decide (10 < r.GP))
      rwa [hfilter] at h
    have hsubm : List.Sublist [toPlayer pred pos r1, toPlayer pred pos r2] pre := by
      have h := hsubf.map (toPlayer pred pos)
      simpa using h
    rw [← hmapval] at hsubm
    obtain ⟨lp, hlp, heq⟩ := List.sublist_map_iff.mp hsubm
    rcases lp with _ | ⟨x1, lp⟩
    · simp at heq
    rcases lp with _ | ⟨x2, lp⟩
    · simp at heq
    rcases lp with _ | ⟨x3, lp⟩
    swap
    · simp at heq
    simp only [List.map_cons, List.map_nil, List.cons.injEq, and_true] at heq
    obtain ⟨hv1, hv2⟩ := heq
    have hx12 : finPerLe x1 x2 = true := by
      unfold finPerLe
      rw [playerLe_fin x1.1 x2.1 x1.2 x2.2, ← hv1, ← hv2, hper, decide_eq_true_eq]
      simp
    have hpair := List.pair_sublist_mergeSort finPerLe_trans finPerLe_total hx12 hlp
    have hmapped := hpair.map Subtype.val
    rw [hkey] at hmapped
    rw [hout]
    simpa [← hv1, ← hv2] using hmapped

/-- A bench fixture with `MIN = 0` (so `per` is exactly 0, finite). -/
def stableA : NBAPlayerStats :=
  { PLAYER_ID := 3, PLAYER_NAME := "Stable A", TEAM_ABBREVIATION := "MIA"
    GP := 20, MIN := 0, FGM := 0, FGA := 0, FG_PCT := 0, FG3M := 0, FG3A := 0
    FG3_PCT := 0, FTM := 0, FTA := 0, FT_PCT := 0, REB := 0, AST := 0, TOV := 0
    STL := 0, BLK := 0, PF := 0, PTS := 0 }

/-- Same statistics line as `stableA` under another identity; the two tie
on `per`. -/
def stableB : NBAPlayerStats :=
  { PLAYER_ID := 4, PLAYER_NAME := "Stable B", TEAM_ABBREVIATION := "MIA"
    GP := 20, MIN := 0, FGM := 0, FGA := 0, FG_PCT := 0, FG3M := 0, FG3A := 0
    FG3_PCT := 0, FTM := 0, FTA := 0, FT_PCT := 0, REB := 0, AST := 0, TOV := 0
    STL := 0, BLK := 0, PF := 0, PTS := 0 }

/-- Witness for C6: two admitted records with equal `per` keep their input
order in the normalizer output. -/
theorem convertToPlayerFormat_sorted_stable_witness :
    [toPlayer pred0 pos0 stableA, toPlayer pred0 pos0 stableB].Sublist
      (convertToPlayerFormat pred0 pos0 [stableA, stableB]) :=
  (convertToPlayerFormat_sorted_stable pred0 pos0 [stableA, stableB]
    (by
      intro pl hpl
      have hlist : (([stableA, stableB].filter fun r => decide (10 < r.GP)).map
          (toPlayer pred0 pos0)) = [toPlayer pred0 pos0 stableA, toPlayer pred0 pos0 stableB] := by
        norm_num [stableA, stableB]
      rw [hlist] at hpl
      rcases List.mem_cons.mp hpl with rfl | hpl2
      · simp [toPlayer, roundTo1J_num, isFinite, calculatePER, stableA]
      · rcases List.mem_cons.mp hpl2 with rfl | hpl3
        · simp [toPlayer, roundTo1J_num, isFinite, calculatePER, stableB]
        · exact absurd hpl3 (List.not_mem_nil _))).2
    stableA stableB (by norm_num [stableA]) (by norm_num [stableB])
    (by simp [toPlayer, calculatePER, stableA, stableB])
    (List.Sublist.refl _)

/-- Claim C8: the normalizer rounds every per-game numeric field (the
listed per-game stats, the shooting pairs, `per` and `predictedPER`) as
`Math.round(x * 10) / 10`, which on the non-negative statistics values is
rounding half away from zero at one decimal; in particular `27.34999`
normalizes to `27.3` and `27.35` to `27.4`. -/
theorem convertToPlayerFormat_rounding (pred : NBAPlayerStats → JsVal → JsVal)
    (pos : String → String) (r : NBAPlayerStats) (x : ℚ) (hx : 0 ≤ x) :
    roundTo1 x = ((awayRound (x * 10) : ℤ) : ℚ) / 10
    ∧ (toPlayer pred pos r).minutes = roundTo1 r.MIN
    ∧ (toPlayer pred pos r).points = roundTo1 r.PTS
    ∧ (toPlayer pred pos r).rebounds = roundTo1 r.REB
    ∧ (toPlayer pred pos r).assists = roundTo1 r.AST
    ∧ (toPlayer pred pos r).steals = roundTo1 r.STL
    ∧ (toPlayer pred pos r).blocks = roundTo1 r.BLK
    ∧ (toPlayer pred pos r).turnovers = roundTo1 r.TOV
    ∧ (toPlayer pred pos r).fieldGoalsMade = roundTo1 r.FGM
    ∧ (toPlayer pred pos r).fieldGoalsAttempted = roundTo1 r.FGA
    ∧ (toPlayer pred pos r).threePointersMade = roundTo1 r.FG3M
    ∧ (toPlayer pred pos r).threePointersAttempted = roundTo1 r.FG3A
    ∧ (toPlayer pred pos r).freeThrowsMade = roundTo1 r.FTM
    ∧ (toPlayer pred pos r).freeThrowsAttempted = roundTo1 r.FTA
    ∧ (toPlayer pred pos r).per = roundTo1J (calculatePER r)
    ∧ (toPlayer pred pos r).predictedPER = roundTo1J (pred r (calculatePER r))
    ∧ roundTo1 27.34999 = 27.3
    ∧ roundTo1 27.35 = 27.4 := by
  refine ⟨?_, rfl, rfl, rfl, rfl, rfl, rfl, rfl, rfl, rfl, rfl, rfl, rfl, rfl,
    rfl, rfl, ?_, ?_⟩
  · unfold roundTo1 jsRoundQ awayRound
    rw [if_pos (mul_nonneg hx (by norm_num))]
  · unfold roundTo1 jsRoundQ
    have h2 : ((27.34999 : ℚ) * 10 + 1/2) = 273.9999 := by norm_num
    rw [h2]
    have h3 : ⌊(273.9999 : ℚ)⌋ = 273 := by
      rw [Int.floor_eq_iff]
      norm_num
    rw [h3]
    norm_num
  · unfold roundTo1 jsRoundQ
    have h2 : ((27.35 : ℚ) * 10 + 1/2) = 274 := by norm_num
    rw [h2]
    have h3 : ⌊(274 : ℚ)⌋ = 274 := by
      rw [Int.floor_eq_iff]
      norm_num
    rw [h3]
    norm_num

/-- Witness for C8 at `x = 0` and the spec section 8 fixture. -/
theorem convertToPlayerFormat_rounding_witness :
    roundTo1 0 = ((awayRound (0 * 10) : ℤ) : ℚ) / 10 :=
  (convertToPlayerFormat_rounding pred0 pos0 fixturePlayer 0 (le_refl 0)).1

/-- Counterexample to C3 as stated: a failing underlying fetch with an
empty cache does NOT leave the service state untouched and does NOT
propagate the failure — `lastFetchTime` moves from `0` to the call time
`5`, and the caller receives an ordinary empty list. -/
theorem cacheFailure_counterexample :
    (fetchPlayerData pred0 pos0 ⟨[], [], 0⟩ 5 (.error "network")).state.lastFetchTime = 5
    ∧ (5 : ℤ) ≠ 0
    ∧ (fetchPlayerData pred0 pos0 ⟨[], [], 0⟩ 5 (.error "network")).players = [] := by
  refine ⟨?_, by norm_num, ?_⟩
  · simp [fetchPlayerData, getPlayerStats, CACHE_DURATION]
  · simp [fetchPlayerData, getPlayerStats, convertToPlayerFormat, CACHE_DURATION]

/-- Amended C3: a failing underlying fetch is swallowed, not propagated:
`getPlayerStats`/`getTeamStats` catch the failure and return the empty
list, so on the fetch path the service overwrites the cache with the empty
list, sets `lastFetchTime` to the call time, and returns an empty result;
because the stored cache is empty, the freshness check fails on any later
call, so the next call does retry the fetch. -/
theorem fetchData_failure_swallowed (pred : NBAPlayerStats → JsVal → JsVal)
    (pos : String → String) (s : ServiceState) (now nxt : ℤ) (e eT : String)
    (outP2 : Except String (List NBAPlayerStats))
    (outT2 : Except String (List NBATeamStats))
    (hp : ¬(0 < s.playerStatsCache.length ∧ now - s.lastFetchTime < CACHE_DURATION))
    (ht : ¬(0 < s.teamStatsCache.length ∧ now - s.lastFetchTime < CACHE_DURATION)) :
    fetchPlayerData pred pos s now (.error e) =
      ⟨[], { s with playerStatsCache := [], lastFetchTime := now }, true⟩
    ∧ (fetchPlayerData pred pos
        ((fetchPlayerData pred pos s now (.error e)).state) nxt outP2).fetchInvoked = true
    ∧ fetchTeamData s now (.error eT) =
      ⟨[], { s with teamStatsCache := [], lastFetchTime := now }, true⟩
    ∧ (fetchTeamData ((fetchTeamData s now (.error eT)).state) nxt outT2).fetchInvoked
        = true := by
  have h1 : fetchPlayerData pred pos s now (.error e) =
      ⟨[], { s with playerStatsCache := [], lastFetchTime := now }, true⟩ := by
    unfold fetchPlayerData
    rw [if_neg hp]
    simp [getPlayerStats, convertToPlayerFormat]
  have h3 : fetchTeamData s now (.error eT) =
      ⟨[], { s with teamStatsCache := [], lastFetchTime := now }, true⟩ := by
    unfold fetchTeamData
    rw [if_neg ht]
    simp [getTeamStats, convertToTeamFormat]
  refine ⟨h1, ?_, h3, ?_⟩
  · rw [h1]
    simp [fetchPlayerData]
  · rw [h3]
    simp [fetchTeamData]

/-- Witness for the amended C3: after a failed fetch at `t = 5` on an
empty cache, the call at `t = 6` invokes the fetch again. -/
theorem fetchData_failure_swallowed_witness :
    (fetchPlayerData pred0 pos0
      ((fetchPlayerData pred0 pos0 ⟨[], [], 0⟩ 5 (.error "a")).state) 6
      (.ok [])).fetchInvoked = true :=
  (fetchData_failure_swallowed pred0 pos0 ⟨[], [], 0⟩ 5 6 "a" "b" (.ok []) (.ok [])
    (by simp) (by simp)).2.1

/-- Counterexample to C4 as stated: on a fresh-cache hit the fetch is
indeed skipped, but the returned value is NOT the identical cached
sequence object — the cached raw rows are re-converted on every hit, so
two hits in the same cache state with different prediction collaborators
return different `Player` lists. -/
theorem cacheHit_counterexample :
    (fetchPlayerData pred0 pos0 ⟨[stableA], [], 0⟩ 100000 (.ok [])).players
      ≠ (fetchPlayerData predB pos0 ⟨[stableA], [], 0⟩ 100000 (.ok [])).players
    ∧ (fetchPlayerData pred0 pos0 ⟨[stableA], [], 0⟩ 100000 (.ok [])).fetchInvoked
        = false := by
  have hgp : decide (10 < stableA.GP) = true := by norm_num [stableA]
  have hconv : ∀ pr : NBAPlayerStats → JsVal → JsVal,
      convertToPlayerFormat pr pos0 [stableA] = [toPlayer pr pos0 stableA] := by
    intro pr
    unfold convertToPlayerFormat
    simp [List.filter_cons, hgp]
  have e0 : (fetchPlayerData pred0 pos0 ⟨[stableA], [], 0⟩ 100000 (.ok [])).players
      = [toPlayer pred0 pos0 stableA] := by
    simp [fetchPlayerData, CACHE_DURATION, hconv]
  have eB : (fetchPlayerData predB pos0 ⟨[stableA], [], 0⟩ 100000 (.ok [])).players
      = [toPlayer predB pos0 stableA] := by
    simp [fetchPlayerData, CACHE_DURATION, hconv]
  have hr0 : roundTo1 0 = 0 := by
    unfold roundTo1 jsRoundQ
    have ha : ((0 : ℚ) * 10 + 1/2) = 1/2 := by norm_num
    rw [ha]
    have hb : ⌊(1/2 : ℚ)⌋ = 0 := by
      rw [Int.floor_eq_iff]
      norm_num
    rw [hb]
    norm_num
  have hr20 : roundTo1 20 = 20 := by
    unfold roundTo1 jsRoundQ
    have ha : ((20 : ℚ) * 10 + 1/2) = 401/2 := by norm_num
    rw [ha]
    have hb : ⌊(401/2 : ℚ)⌋ = 200 := by
      rw [Int.floor_eq_iff]
      norm_num
    rw [hb]
    norm_num
  refine ⟨?_, by simp [fetchPlayerData, CACHE_DURATION]⟩
  rw [e0, eB]
  intro h
  simp only [List.cons.injEq, and_true] at h
  have h3 := congrArg Player.predictedPER h
  have h4 : JsVal.num (roundTo1 0) = JsVal.num (roundTo1 20) := by
    simpa [toPlayer, roundTo1J_num, pred0, predB] using h3
  rw [hr0, hr20] at h4
  simp at h4

/-- Amended C4: on a call with a non-empty cache and
`now − lastFetchTime < CACHE_DURATION`, the fetch function is not invoked,
the state is unchanged, and the CACHED RAW ROWS ARE RE-CONVERTED through
`convertToPlayerFormat` / `convertToTeamFormat` (a freshly built list, not
the identical previously returned object); a call with
`now − lastFetchTime ≥ CACHE_DURATION` invokes the fetch function again. -/
theorem cacheHit_reconverts (pred : NBAPlayerStats → JsVal → JsVal)
    (pos : String → String) (s : ServiceState) (now now2 : ℤ)
    (outP outP2 : Except String (List NBAPlayerStats))
    (outT outT2 : Except String (List NBATeamStats))
    (hp : 0 < s.playerStatsCache.length)
    (hf : now - s.lastFetchTime < CACHE_DURATION)
    (hs2 : CACHE_DURATION ≤ now2 - s.lastFetchTime)
    (htm : 0 < s.teamStatsCache.length) :
    fetchPlayerData pred pos s now outP =
      ⟨convertToPlayerFormat pred pos s.playerStatsCache, s, false⟩
    ∧ (fetchPlayerData pred pos s now2 outP2).fetchInvoked = true
    ∧ fetchTeamData s now outT = ⟨convertToTeamFormat s.teamStatsCache, s, false⟩
    ∧ (fetchTeamData s now2 outT2).fetchInvoked = true := by
  refine ⟨?_, ?_, ?_, ?_⟩
  · unfold fetchPlayerData
    rw [if_pos ⟨hp, hf⟩]
  · unfold fetchPlayerData
    rw [if_neg (fun hcon => absurd hcon.2 (not_lt.mpr hs2))]
  · unfold fetchTeamData
    rw [if_pos ⟨htm, hf⟩]
  · unfold fetchTeamData
    rw [if_neg (fun hcon => absurd hcon.2 (not_lt.mpr hs2))]

/-- A concrete team-stats fixture. -/
def fixtureTeam : NBATeamStats :=
  { TEAM_ID := 10, TEAM_NAME := "Los Angeles Lakers", TEAM_CITY := "Los Angeles"
    TEAM_ABBREVIATION := "LAL", W := 50, L := 32, W_PCT := 0.61, PTS := 115
    REB := 44, AST := 27, FG_PCT := 0.49, FG3_PCT := 0.37, FT_PCT := 0.78 }

/-- Witness for the amended C4: fresh hit at `t = 100000` skips the fetch,
stale call at `t = 301000` invokes it. -/
theorem cacheHit_reconverts_witness :
    (fetchPlayerData pred0 pos0 ⟨[stableA], [fixtureTeam], 0⟩ 100000 (.ok [])).fetchInvoked
        = false
    ∧ (fetchPlayerData pred0 pos0 ⟨[stableA], [fixtureTeam], 0⟩ 301000 (.ok [])).fetchInvoked
        = true := by
  have h := cacheHit_reconverts pred0 pos0 ⟨[stableA], [fixtureTeam], 0⟩ 100000 301000
    (.ok []) (.ok []) (.ok []) (.ok []) (by simp) (by norm_num [CACHE_DURATION])
    (by norm_num [CACHE_DURATION]) (by simp)
  exact ⟨by rw [h.1], h.2.1⟩

/-- Claim C9: both fetchers write the single shared `lastFetchTime` field
and both freshness checks read it, so a players fetch at time `t` decides
the freshness of a later teams call (and vice versa). -/
theorem shared_lastFetchTime (pred : NBAPlayerStats → JsVal → JsVal)
    (pos : String → String) (s : ServiceState) (t tt tp : ℤ)
    (outP outP2 : Except String (List NBAPlayerStats))
    (outT outT2 : Except String (List NBATeamStats))
    (hmissP : ¬(0 < s.playerStatsCache.length ∧ t - s.lastFetchTime < CACHE_DURATION))
    (hmissT : ¬(0 < s.teamStatsCache.length ∧ t - s.lastFetchTime < CACHE_DURATION)) :
    (fetchPlayerData pred pos s t outP).state.lastFetchTime = t
    ∧ (fetchTeamData s t outT).state.lastFetchTime = t
    ∧ ((fetchTeamData ((fetchPlayerData pred pos s t outP).state) tt outT2).fetchInvoked
          = false ↔ 0 < s.teamStatsCache.length ∧ tt - t < CACHE_DURATION)
    ∧ ((fetchPlayerData pred pos ((fetchTeamData s t outT).state) tp outP2).fetchInvoked
          = false ↔ 0 < s.playerStatsCache.length ∧ tp - t < CACHE_DURATION) := by
  have hS : (fetchPlayerData pred pos s t outP).state
      = { s with playerStatsCache := getPlayerStats outP, lastFetchTime := t } := by
    unfold fetchPlayerData
    rw [if_neg hmissP]
  have hT : (fetchTeamData s t outT).state
      = { s with teamStatsCache := getTeamStats outT, lastFetchTime := t } := by
    unfold fetchTeamData
    rw [if_neg hmissT]
  refine ⟨by rw [hS], by rw [hT], ?_, ?_⟩
  · rw [hS]
    by_cases h : 0 < s.teamStatsCache.length ∧ tt - t < CACHE_DURATION
    · simp [fetchTeamData, h.1, h.2]
    · rw [Classical.not_and_iff_or_not_not] at h
      rcases h with h | h
      · simp [fetchTeamData, h]
      · simp [fetchTeamData, h]
  · rw [hT]
    by_cases h : 0 < s.playerStatsCache.length ∧ tp - t < CACHE_DURATION
    · simp [fetchPlayerData, h.1, h.2]
    · rw [Classical.not_and_iff_or_not_not] at h
      rcases h with h | h
      · simp [fetchPlayerData, h]
      · simp [fetchPlayerData, h]

/-- Witness for C9: after a players fetch at `t = 1` on an initially empty
service, the timestamp read by the teams freshness check is `1`. -/
theorem shared_lastFetchTime_witness :
    (fetchPlayerData pred0 pos0 ⟨[], [], 0⟩ 1 (.ok [])).state.lastFetchTime = 1 :=
  (shared_lastFetchTime pred0 pos0 ⟨[], [], 0⟩ 1 2 2 (.ok []) (.ok []) (.ok [])
    (.ok []) (by simp) (by simp)).1
